import Mathlib

/-!
Verification of the core of a property-search chat application
(`streamlit_app.py`): the natural-language query parser `parse_query`,
the filter engine `search_properties`, the summary generator
`generate_summary`, and the price-formatting step of the card formatter
`format_property_card`.

The Python source is embedded shallowly:

* strings are scanned as `List Char`; Python's `str.lower` and the `in`
  substring test are modelled character-wise;
* the two budget regexes, `(\d+)\s*bhk`, and `re.search`'s leftmost
  semantics are modelled exactly.  Every character class in those
  patterns is disjoint from the literal that follows it, so the greedy
  runs never need to backtrack and a maximal-munch matcher is
  observationally identical to Python's engine on these patterns;
* numbers are rationals.  Python's binary floating point differs from ℚ
  only by sub-ulp rounding, which no statement below exercises;
* pandas tables become `List Listing`; `NaN` cells become `Option`
  fields, and `NaN` comparisons are `false`, as in pandas;
* a Python exception is `none` at the `Option` level of `parse_query`.

A central fact about the source: its budget regexes are written with a
mojibake of the rupee sign, the three literal characters U+201A U+00C7
U+03C0, of which only the third carries the `?` quantifier.  The first
two are therefore mandatory, and U+00C7 is an upper-case letter that can
never occur in the lower-cased query the regexes are run against, so the
budget patterns match no query at all.
-/

/-- U+201A (a low single quotation mark): first character of the source's
literal currency prefix, a mojibake of the rupee sign. -/
def lowQuote : Char := Char.ofNat 0x201A

/-- U+00C7 (Latin capital C with cedilla): second, mandatory character of the
source's literal currency prefix inside the budget regexes. -/
def capCedilla : Char := Char.ofNat 0xC7

/-- U+00E7, the lower-case counterpart of `capCedilla` under Python
`str.lower`. -/
def smallCedilla : Char := Char.ofNat 0xE7

/-- U+03C0 (Greek small pi): third character of the source's literal currency
prefix; the only one the budget regexes make optional. -/
def piChar : Char := Char.ofNat 0x3C0

/-- The literal currency prefix the source writes in front of every formatted
price (the mojibake of the rupee sign). -/
def rupee : String := String.mk [lowQuote, capCedilla, piChar]

/-- Python `str.lower`, modelled character-wise on the repertoire the
program's patterns distinguish: ASCII capitals are lowered, U+00C7 lowers to
U+00E7, every other character is left unchanged. -/
def pyCharLower (c : Char) : Char :=
  if c = capCedilla then smallCedilla
  else if 65 ≤ c.toNat ∧ c.toNat ≤ 90 then Char.ofNat (c.toNat + 32)
  else c

/-- Lower-casing of a whole string, as `query.lower()` does. -/
def lowerChars (s : List Char) : List Char := s.map pyCharLower

/-- The regex class `\s`, restricted to ASCII whitespace. -/
def pyIsSpace (c : Char) : Bool := c == ' ' || (9 ≤ c.toNat && c.toNat ≤ 13)

/-- The regex class `[\d.]`. -/
def isDigitDot (c : Char) : Bool := c.isDigit || c == '.'

/-- `leadsWith pat l` holds when `pat` is an initial run of `l`. -/
def leadsWith : List Char → List Char → Bool
  | [], _ => true
  | _ :: _, [] => false
  | a :: as, b :: bs => a == b && leadsWith as bs

/-- Python's `pat in hay` substring test. -/
def hasSub (hay pat : List Char) : Bool :=
  match hay with
  | [] => pat.isEmpty
  | _ :: t => leadsWith pat hay || hasSub t pat

/-- The city-alias mapping of `parse_query` (src line 106), in the source's
insertion order, which Python dict iteration follows. -/
def cities : List (String × List String) :=
  [("pune", ["pune", "pimpri", "chinchwad"]),
   ("mumbai", ["mumbai", "bombay", "chembur"]),
   ("bangalore", ["bangalore", "bengaluru"])]

/-- Python `str.title` restricted to a single lower-case word, which is all
the source applies it to. -/
def titleWord (s : String) : String :=
  match s.data with
  | [] => ""
  | c :: cs => String.mk (c.toUpper :: cs)

/-- Does some alias of a city entry occur in the lowered query? -/
def aliasHit (vs : List String) (ql : List Char) : Bool :=
  vs.any (fun v => hasSub ql v.data)

/-- The city-extraction loop of `parse_query` (src lines 105-115).  The
`break` in the source leaves only the inner loop, so each later entry whose
alias occurs overwrites `city`. -/
def findCity (ql : List Char) : Option String :=
  cities.foldl (fun acc p => if aliasHit p.2 ql then some (titleWord p.1) else acc) none

/-- Attempt of the regex `(\d+)\s*bhk` anchored at the head of `s`, returning
the digit group. -/
def matchBhkAt (s : List Char) : Option (List Char) :=
  let ds := s.takeWhile Char.isDigit
  if ds.isEmpty then none
  else
    let r := (s.drop ds.length).dropWhile pyIsSpace
    if leadsWith ['b', 'h', 'k'] r then some ds else none

/-- `re.search` of `(\d+)\s*bhk` (src line 119): first start position, left
to right, at which the pattern matches. -/
def searchBhk : List Char → Option (List Char)
  | [] => none
  | s@(_ :: t) =>
    match matchBhkAt s with
    | some g => some g
    | none => searchBhk t

/-- Attempt, anchored at the head of `s`, of the budget regex of src lines
125 and 129: literal `under`, `\s*`, the literal mojibake prefix whose first
two characters U+201A U+00C7 are mandatory and whose third U+03C0 is
optional, `\s*`, the group `([\d.]+)`, `\s*`, and the unit literal. -/
def matchUnderAt (unit : List Char) (s : List Char) : Option (List Char) :=
  if leadsWith ['u', 'n', 'd', 'e', 'r'] s then
    let r1 := (s.drop 5).dropWhile pyIsSpace
    if leadsWith [lowQuote, capCedilla] r1 then
      let r2 := r1.drop 2
      let r3 := if leadsWith [piChar] r2 then r2.drop 1 else r2
      let r4 := r3.dropWhile pyIsSpace
      let g := r4.takeWhile isDigitDot
      if g.isEmpty then none
      else
        let r5 := (r4.drop g.length).dropWhile pyIsSpace
        if leadsWith unit r5 then some g else none
    else none
  else none

/-- `re.search` of a budget pattern: scan the start positions left to
right. -/
def searchUnder (unit : List Char) : List Char → Option (List Char)
  | [] => none
  | s@(_ :: t) =>
    match matchUnderAt unit s with
    | some g => some g
    | none => searchUnder unit t

/-- Value of a digit run. -/
def digitsVal (l : List Char) : ℕ := l.foldl (fun a c => a * 10 + (c.toNat - 48)) 0

/-- Python `float` on a non-empty string drawn from the class `[\d.]+`: it
succeeds exactly when the string holds at least one digit and at most one
dot, and then denotes the usual decimal value (kept exact in ℚ). -/
def pyFloat (l : List Char) : Option ℚ :=
  let ip := l.takeWhile (fun c => c != '.')
  match l.dropWhile (fun c => c != '.') with
  | [] => if ip.isEmpty then none else some (digitsVal ip : ℚ)
  | _ :: fp =>
    if fp.any (fun c => c == '.') then none
    else if ip.isEmpty && fp.isEmpty then none
    else some ((digitsVal ip : ℚ) + (digitsVal fp : ℚ) / (10 : ℚ) ^ fp.length)

/-- The record `parse_query` returns (src lines 140-145). -/
structure QueryFilter where
  city : Option String
  bhk : Option String
  budget_max : Option ℚ
  possession : Option String
deriving Repr, DecidableEq

/-- The possession-status extraction of src lines 134-138. -/
def possessionOf (ql : List Char) : Option String :=
  if hasSub ql ("ready".data) || hasSub ql ("ready to move".data) then
    some "READY_TO_MOVE"
  else if hasSub ql ("construction".data) || hasSub ql ("under construction".data) then
    some "UNDER_CONSTRUCTION"
  else none

/-- The unit literal of the crore budget pattern. -/
def unitCr : List Char := ['c', 'r']

/-- The unit literal of the lakh budget pattern. -/
def unitLakh : List Char := ['l', 'a', 'k', 'h']

/-- `parse_query` (src lines 100-145).  The result is `none` exactly when the
Python function would raise, which happens only if a budget regex matches
with a group that `float` rejects; otherwise `some` of the filter record. -/
def parse_query (query : String) : Option QueryFilter :=
  let ql := lowerChars query.data
  let city := findCity ql
  let bhk := (searchBhk ql).map (fun g => String.mk g ++ "BHK")
  let stepCr : Option (Option ℚ) :=
    match searchUnder unitCr ql with
    | none => some none
    | some g =>
      match pyFloat g with
      | none => none
      | some v => some (some (v * 10000000))
  match stepCr with
  | none => none
  | some b1 =>
    let stepLakh : Option (Option ℚ) :=
      match searchUnder unitLakh ql with
      | none => some b1
      | some g =>
        match pyFloat g with
        | none => none
        | some v => some (some (v * 100000))
    match stepLakh with
    | none => none
    | some budget => some ⟨city, bhk, budget, possessionOf ql⟩

/-- One row of the joined listing table, restricted to the columns the
functions under verification read.  A missing (`NaN`) cell is `none`. -/
structure Listing where
  fullAddress : Option String
  type : Option String
  price : Option ℚ
  status : Option String
deriving Repr, DecidableEq

/-- Python truthiness of an optional string: `None` and `""` are falsy. -/
def truthyS : Option String → Bool
  | none => false
  | some s => !(s == "")

/-- Python truthiness of an optional number: `None` and `0.0` are falsy. -/
def truthyQ : Option ℚ → Bool
  | none => false
  | some q => !(q == 0)

/-- The string held by a truthy optional field. -/
def getS : Option String → String
  | none => ""
  | some s => s

/-- The number held by a truthy optional field. -/
def getQ : Option ℚ → ℚ
  | none => 0
  | some q => q

/-- The city predicate of src line 157: pandas
`fullAddress.str.contains(city, case=False, na=False)`. -/
def rowCity (c : String) (row : Listing) : Bool :=
  match row.fullAddress with
  | some a => hasSub (lowerChars a.data) (lowerChars c.data)
  | none => false

/-- The unit-type predicate of src line 161; a `NaN` cell compares `False`. -/
def rowBhk (b : String) (row : Listing) : Bool := row.type == some b

/-- The budget predicate of src line 165; a `NaN` price compares `False`. -/
def rowBudget (m : ℚ) (row : Listing) : Bool :=
  match row.price with
  | some p => decide (p ≤ m)
  | none => false

/-- The possession predicate of src line 169. -/
def rowStatus (st : String) (row : Listing) : Bool := row.status == some st

/-- One truthiness-guarded filter stage of `search_properties`: the source's
`if filters[...]: result_df = result_df[...]`. -/
def applyIf (g : Bool) (p : Listing → Bool) (l : List Listing) : List Listing :=
  if g then l.filter p else l

/-- `search_properties` (src lines 148-171): the four truthiness-guarded
filter stages in source order (city, unit type, budget, possession),
followed by `head(limit)`. -/
def search_properties (df : List Listing) (fl : QueryFilter) (limit : ℕ) : List Listing :=
  if df.isEmpty then df
  else
    (applyIf (truthyS fl.possession) (rowStatus (getS fl.possession))
      (applyIf (truthyQ fl.budget_max) (rowBudget (getQ fl.budget_max))
        (applyIf (truthyS fl.bhk) (rowBhk (getS fl.bhk))
          (applyIf (truthyS fl.city) (rowCity (getS fl.city)) df)))).take limit

/-- The conjunction of the four truthiness-guarded predicates of
`search_properties`: a skipped (falsy) dimension contributes `true`.  The
conjuncts are nested in the order the merged sequential filters produce. -/
def rowPass (fl : QueryFilter) (row : Listing) : Bool :=
  (!truthyS fl.possession || rowStatus (getS fl.possession) row) &&
    ((!truthyQ fl.budget_max || rowBudget (getQ fl.budget_max) row) &&
      ((!truthyS fl.bhk || rowBhk (getS fl.bhk) row) &&
        (!truthyS fl.city || rowCity (getS fl.city) row)))

/-- Round a non-negative rational to the nearest integer, halves upward:
for `x = num / den` this is `(2 num + den) / (2 den)` with integer division.
Python's float formatting rounds the binary double to nearest; the two differ
only at exact decimal-half ties, which no statement below exercises. -/
def halfRound (x : ℚ) : ℤ := (2 * x.num + x.den) / (2 * (x.den : ℤ))

/-- Left-pad with zeros to the given width. -/
def padZeros (s : String) (w : ℕ) : String :=
  String.mk (List.replicate (w - s.length) '0') ++ s

/-- Python fixed-point formatting of a non-negative value with `d` decimal
places, as in the source's format specifiers. -/
def fmtFixed (d : ℕ) (x : ℚ) : String :=
  let m := (halfRound (x * (10 : ℚ) ^ d)).toNat
  if d == 0 then toString m
  else toString (m / 10 ^ d) ++ "." ++ padZeros (toString (m % 10 ^ d)) d

/-- The budget clause formatter of src line 191: one decimal in crores at or
above ten million, else zero decimals in lakhs. -/
def budget_str (b : ℚ) : String :=
  if 10000000 ≤ b then rupee ++ fmtFixed 1 (b / 10000000) ++ " Cr"
  else rupee ++ fmtFixed 0 (b / 100000) ++ " L"

/-- The average-price formatter of src line 201: two decimals in crores at or
above ten million, else zero decimals in lakhs. -/
def avg_str (a : ℚ) : String :=
  if 10000000 ≤ a then rupee ++ fmtFixed 2 (a / 10000000) ++ " Cr"
  else rupee ++ fmtFixed 0 (a / 100000) ++ " L"

/-- The first sentence built by `generate_summary` (src lines 182-194): the
count clause followed by the clauses whose filter field is truthy. -/
def summary_first (results : List Listing) (fl : QueryFilter) : String :=
  let count := results.length
  let parts := ["Found " ++ toString count ++ " " ++
    (if count == 1 then "property" else "properties")]
  let parts := if truthyS fl.bhk then
    parts ++ ["matching your " ++ getS fl.bhk ++ " requirement"] else parts
  let parts := if truthyS fl.city then parts ++ ["in " ++ getS fl.city] else parts
  let parts := if truthyQ fl.budget_max then
    parts ++ ["under " ++ budget_str (getQ fl.budget_max)] else parts
  String.intercalate " " parts ++ "."

/-- The non-missing prices of a result set: pandas
`results['price'].dropna()` (src line 198). -/
def droppedPrices (results : List Listing) : List ℚ :=
  results.filterMap (fun r => r.price)

/-- The arithmetic mean `prices.mean()` of the non-missing prices
(src line 200); meaningful only when some price is present. -/
def priceMean (results : List Listing) : ℚ :=
  (droppedPrices results).sum / ((droppedPrices results).length : ℚ)

/-- `generate_summary` (src lines 174-204).  The `price` column always exists
in the model, so the source's `'price' in results.columns` test is `True`. -/
def generate_summary (results : List Listing) (fl : QueryFilter) : String :=
  if results.length == 0 then
    "No properties found matching your criteria. Try adjusting your budget or location preferences."
  else
    let base := summary_first results fl
    if 0 < (droppedPrices results).length then
      base ++ " Average price is around " ++ avg_str (priceMean results) ++ "."
    else base

/-- The price-display step of `format_property_card` (src lines 210-214):
present positive prices are bucketed at ten million with two decimals either
way; missing or non-positive prices yield the fixed placeholder. -/
def card_price_str (price : Option ℚ) : String :=
  match price with
  | some p =>
    if 0 < p then
      if 10000000 ≤ p then rupee ++ fmtFixed 2 (p / 10000000) ++ " Cr"
      else rupee ++ fmtFixed 2 (p / 100000) ++ " L"
    else "Price on request"
  | none => "Price on request"

/-!  Basic lemmas: the lowered query can hold no capital C-with-cedilla, so
the budget regexes can match nowhere in it. -/

/-- Lower-casing never produces the capital C-with-cedilla: ASCII capitals
lower into `a`-`z`, the capital cedilla itself lowers to the small one, and
every other character is unchanged (so in particular is not it). -/
theorem pyCharLower_ne_capCedilla (c : Char) : pyCharLower c ≠ capCedilla := by
  unfold pyCharLower
  by_cases h1 : c = capCedilla
  · rw [if_pos h1]; decide
  · rw [if_neg h1]
    by_cases h2 : 65 ≤ c.toNat ∧ c.toNat ≤ 90
    · rw [if_pos h2]
      obtain ⟨h65, h90⟩ := h2
      generalize hn : c.toNat = n at h65 h90
      interval_cases n <;> decide
    · rw [if_neg h2]; exact h1

/-- The capital C-with-cedilla occurs in no lowered string. -/
theorem capCedilla_not_mem_lower (s : List Char) : capCedilla ∉ lowerChars s := by
  unfold lowerChars
  intro hmem
  obtain ⟨c, _, hc⟩ := List.mem_map.mp hmem
  exact pyCharLower_ne_capCedilla c hc

/-- A successful two-character literal match puts its second character in the
list. -/
theorem leadsWith_two_mem {a b : Char} {l : List Char}
    (h : leadsWith [a, b] l = true) : b ∈ l := by
  match l with
  | [] => simp [leadsWith] at h
  | [x] => simp [leadsWith] at h
  | x :: y :: ys =>
    simp [leadsWith] at h
    rw [h.2]
    exact List.mem_cons_of_mem x (List.mem_cons_self y ys)

/-- The anchored budget matcher fails on any list free of the capital
C-with-cedilla, since that character is a mandatory literal of the regex. -/
theorem matchUnderAt_eq_none (unit : List Char) (s : List Char)
    (h : capCedilla ∉ s) : matchUnderAt unit s = none := by
  have hlw : leadsWith [lowQuote, capCedilla] ((s.drop 5).dropWhile pyIsSpace) = false := by
    cases hEq : leadsWith [lowQuote, capCedilla] ((s.drop 5).dropWhile pyIsSpace) with
    | false => rfl
    | true =>
      exfalso
      have hmem : capCedilla ∈ (s.drop 5).dropWhile pyIsSpace := leadsWith_two_mem hEq
      have hsub : ((s.drop 5).dropWhile pyIsSpace).Sublist s :=
        (List.dropWhile_sublist _).trans (List.drop_sublist 5 s)
      exact h (List.Sublist.mem hmem hsub)
  simp [matchUnderAt, hlw]

/-- `re.search` of a budget pattern fails on any list free of the capital
C-with-cedilla. -/
theorem searchUnder_eq_none (unit : List Char) :
    ∀ s : List Char, capCedilla ∉ s → searchUnder unit s = none := by
  intro s
  induction s with
  | nil => intro _; rfl
  | cons c t ih =>
    intro h
    have h1 : matchUnderAt unit (c :: t) = none := matchUnderAt_eq_none _ _ h
    have h2 : capCedilla ∉ t := fun hm => h (List.mem_cons_of_mem c hm)
    simp [searchUnder, h1, ih h2]

/-- Closed form of `parse_query`: the budget regexes match no query, so no
exception can be raised and the budget field is always null. -/
theorem parse_query_eq (q : String) :
    parse_query q = some ⟨findCity (lowerChars q.data),
      (searchBhk (lowerChars q.data)).map (fun g => String.mk g ++ "BHK"),
      none, possessionOf (lowerChars q.data)⟩ := by
  have hcr : searchUnder unitCr (lowerChars q.data) = none :=
    searchUnder_eq_none _ _ (capCedilla_not_mem_lower q.data)
  have hlakh : searchUnder unitLakh (lowerChars q.data) = none :=
    searchUnder_eq_none _ _ (capCedilla_not_mem_lower q.data)
  simp only [parse_query]
  rw [hcr, hlakh]

/-- Closed form of the city loop: the value is decided by the latest entry,
in mapping-iteration order, one of whose aliases occurs. -/
theorem findCity_eq (ql : List Char) :
    findCity ql =
      if aliasHit ["bangalore", "bengaluru"] ql then some "Bangalore"
      else if aliasHit ["mumbai", "bombay", "chembur"] ql then some "Mumbai"
      else if aliasHit ["pune", "pimpri", "chinchwad"] ql then some "Pune"
      else none := by
  cases hb : aliasHit ["bangalore", "bengaluru"] ql <;>
    cases hm : aliasHit ["mumbai", "bombay", "chembur"] ql <;>
      cases hp : aliasHit ["pune", "pimpri", "chinchwad"] ql <;>
        simp [findCity, cities, hb, hm, hp] <;> decide

/-- A truthiness-guarded filter stage equals an unconditional filter whose
predicate defaults to `true` when the guard is falsy. -/
theorem applyIf_eq (g : Bool) (p : Listing → Bool) (l : List Listing) :
    applyIf g p l = l.filter (fun a => !g || p a) := by
  cases g with
  | false => simp [applyIf, List.filter_true]
  | true => simp [applyIf]

/-- `search_properties` is the filter by the merged truthy predicates,
truncated to the limit. -/
theorem search_eq (df : List Listing) (fl : QueryFilter) (limit : ℕ) :
    search_properties df fl limit = (df.filter (rowPass fl)).take limit := by
  cases df with
  | nil => simp [search_properties]
  | cons a l =>
    simp only [search_properties, List.isEmpty_cons, applyIf_eq, List.filter_filter]
    rfl

/-!  Claim theorems. -/

/-- C1, counterexample: the query "pune mumbai" holds an alias of Pune (the
city iterated first) and an alias of Mumbai, yet `parse_query` returns
Mumbai, not Pune — the first-found-alias tie-break of the claim is false. -/
theorem parse_city_first_alias_false :
    parse_query "pune mumbai" = some ⟨some "Mumbai", none, none, none⟩ ∧
      ("Mumbai" : String) ≠ "Pune" := by
  constructor
  · decide
  · decide

/-- C1 (amended): when aliases of several cities occur in the query, the city
whose canonical entry is iterated last in the mapping wins, because the
source's `break` leaves only the inner alias loop and each later matching
entry overwrites the earlier one.  The conclusion characterises the parsed
city completely: Bangalore if one of its aliases occurs, else Mumbai if one
of its occurs, else Pune if one of its occurs, else null. -/
theorem parse_city_last_alias_wins (q : String) (f : QueryFilter)
    (h : parse_query q = some f) :
    f.city =
      if aliasHit ["bangalore", "bengaluru"] (lowerChars q.data) then some "Bangalore"
      else if aliasHit ["mumbai", "bombay", "chembur"] (lowerChars q.data) then some "Mumbai"
      else if aliasHit ["pune", "pimpri", "chinchwad"] (lowerChars q.data) then some "Pune"
      else none := by
  rw [parse_query_eq] at h
  cases Option.some.inj h
  exact findCity_eq (lowerChars q.data)

/-- C1, witness: the amended theorem applied to the query
"bombay and bengaluru", in which aliases of Mumbai and of Bangalore occur and
Bangalore — iterated last — wins. -/
theorem parse_city_last_alias_wins_w :
    (some "Bangalore" : Option String) =
      if aliasHit ["bangalore", "bengaluru"] (lowerChars ("bombay and bengaluru" : String).data)
        then some "Bangalore"
      else if aliasHit ["mumbai", "bombay", "chembur"]
          (lowerChars ("bombay and bengaluru" : String).data) then some "Mumbai"
      else if aliasHit ["pune", "pimpri", "chinchwad"]
          (lowerChars ("bombay and bengaluru" : String).data) then some "Pune"
      else none :=
  parse_city_last_alias_wins "bombay and bengaluru"
    ⟨some "Bangalore", none, none, none⟩ (by decide)

/-- C2: `parse_query` is total — it returns a filter record on every query
and never raises.  The only fallible step of the source, `float` applied to a
budget-regex group, is unreachable because the budget regexes (whose
currency-prefix literal requires a capital C-with-cedilla) match no
lower-cased query. -/
theorem parse_query_total (q : String) : (parse_query q).isSome = true := by
  rw [parse_query_eq]
  rfl

/-- C4: the parsed budget is always null.  The claim's premise — a query on
which both budget patterns match — is unsatisfiable: the regexes of src lines
125 and 129 demand the literal characters U+201A U+00C7 before the number,
and U+00C7 is an upper-case letter that `query.lower()` can never emit, so
neither pattern matches any query and `budget_max` is never set at all
(contradicting the claim's expected lakh-pattern result). -/
theorem parse_budget_always_none (q : String) (f : QueryFilter)
    (h : parse_query q = some f) : f.budget_max = none := by
  rw [parse_query_eq] at h
  cases Option.some.inj h
  rfl

/-- C4, witness: at the query "under 1 cr under 80 lakh" — which the spec
expects to set a budget of 8,000,000 — the parsed filter's budget is null. -/
theorem parse_budget_always_none_w :
    (⟨none, none, none, none⟩ : QueryFilter).budget_max = none :=
  parse_budget_always_none "under 1 cr under 80 lakh"
    ⟨none, none, none, none⟩ (by decide)

/-- C5: on an empty result list `generate_summary` returns the fixed
no-results message, whatever the filter holds. -/
theorem summary_empty_fixed (fl : QueryFilter) :
    generate_summary [] fl =
      "No properties found matching your criteria. Try adjusting your budget or location preferences." :=
  rfl

/-- C3, counterexample: with the filter whose budget is 0 — non-null — the
truthiness guard of src line 164 skips the budget stage, so a listing priced
5,000,000 is returned even though it does not satisfy the budget predicate
`price ≤ 0`. -/
theorem search_nonnull_budget_pred_false :
    search_properties [⟨some "Baner, Pune", some "3BHK", some 5000000, some "READY_TO_MOVE"⟩]
        ⟨none, none, some 0, none⟩ 10 =
      [⟨some "Baner, Pune", some "3BHK", some 5000000, some "READY_TO_MOVE"⟩] ∧
    (⟨none, none, some 0, none⟩ : QueryFilter).budget_max = some 0 ∧
    ¬ ((5000000 : ℚ) ≤ 0) := by
  refine ⟨by decide, rfl, by decide⟩

/-- C3 (amended): the result of `search_properties` has length at most the
limit, equals the first at-most-limit rows, in table order, of the stable
filter by the conjoined predicates, and every returned row satisfies every
truthy predicate of the filter — truthy, not merely non-null, because the
source's guards are truthiness tests that also skip a zero budget or an
empty-string field. -/
theorem search_truthy_filter_spec (df : List Listing) (fl : QueryFilter) (limit : ℕ) :
    (search_properties df fl limit).length ≤ limit ∧
    search_properties df fl limit = (df.filter (rowPass fl)).take limit ∧
    ∀ row ∈ search_properties df fl limit,
      (truthyS fl.city = true → rowCity (getS fl.city) row = true) ∧
      (truthyS fl.bhk = true → rowBhk (getS fl.bhk) row = true) ∧
      (truthyQ fl.budget_max = true → rowBudget (getQ fl.budget_max) row = true) ∧
      (truthyS fl.possession = true → rowStatus (getS fl.possession) row = true) := by
  refine ⟨?_, search_eq df fl limit, ?_⟩
  · rw [search_eq]
    exact List.length_take_le limit _
  · intro row hrow
    rw [search_eq] at hrow
    have hp : rowPass fl row = true :=
      (List.mem_filter.mp (List.mem_of_mem_take hrow)).2
    unfold rowPass at hp
    simp only [Bool.and_eq_true, Bool.or_eq_true] at hp
    obtain ⟨h4, h3, h2, h1⟩ := hp
    refine ⟨?_, ?_, ?_, ?_⟩
    · intro ht
      rcases h1 with hneg | hpos
      · rw [ht] at hneg; exact absurd hneg (by decide)
      · exact hpos
    · intro ht
      rcases h2 with hneg | hpos
      · rw [ht] at hneg; exact absurd hneg (by decide)
      · exact hpos
    · intro ht
      rcases h3 with hneg | hpos
      · rw [ht] at hneg; exact absurd hneg (by decide)
      · exact hpos
    · intro ht
      rcases h4 with hneg | hpos
      · rw [ht] at hneg; exact absurd hneg (by decide)
      · exact hpos

/-- C3, witness: the amended theorem instantiated at a one-row table with a
city filter. -/
theorem search_truthy_filter_spec_w :
    (search_properties [⟨some "Alpha Road, Pune", some "2BHK", some 4000000, some "READY_TO_MOVE"⟩]
        ⟨some "Pune", none, none, none⟩ 5).length ≤ 5 ∧
    search_properties [⟨some "Alpha Road, Pune", some "2BHK", some 4000000, some "READY_TO_MOVE"⟩]
        ⟨some "Pune", none, none, none⟩ 5 =
      ([⟨some "Alpha Road, Pune", some "2BHK", some 4000000, some "READY_TO_MOVE"⟩].filter
        (rowPass ⟨some "Pune", none, none, none⟩)).take 5 :=
  ⟨(search_truthy_filter_spec _ _ _).1, (search_truthy_filter_spec _ _ _).2.1⟩

/-- C6: a query in which no city alias, no unit-type pattern, no budget
pattern and no possession token is found parses to the all-null filter, and
the all-null filter makes `search_properties` return the first limit rows of
any table unchanged — null filters are no-ops. -/
theorem parse_unrecognized_and_search_noop (q : String)
    (h1 : aliasHit ["pune", "pimpri", "chinchwad"] (lowerChars q.data) = false)
    (h2 : aliasHit ["mumbai", "bombay", "chembur"] (lowerChars q.data) = false)
    (h3 : aliasHit ["bangalore", "bengaluru"] (lowerChars q.data) = false)
    (h4 : searchBhk (lowerChars q.data) = none)
    (h5 : searchUnder unitCr (lowerChars q.data) = none)
    (h6 : searchUnder unitLakh (lowerChars q.data) = none)
    (h7 : hasSub (lowerChars q.data) ("ready".data) = false)
    (h8 : hasSub (lowerChars q.data) ("ready to move".data) = false)
    (h9 : hasSub (lowerChars q.data) ("construction".data) = false)
    (h10 : hasSub (lowerChars q.data) ("under construction".data) = false) :
    parse_query q = some ⟨none, none, none, none⟩ ∧
    ∀ df limit, search_properties df (⟨none, none, none, none⟩ : QueryFilter) limit
      = df.take limit := by
  constructor
  · rw [parse_query_eq, findCity_eq, h1, h2, h3, h4]
    unfold possessionOf
    rw [h7, h8, h9, h10]
    rfl
  · intro df limit
    rw [search_eq]
    have hpass : rowPass (⟨none, none, none, none⟩ : QueryFilter) = fun _ => true := rfl
    rw [hpass, List.filter_true]

/-- C6, witness: the theorem at the token-free query "hello world" and a
concrete one-row table. -/
theorem parse_unrecognized_and_search_noop_w :
    parse_query "hello world" = some ⟨none, none, none, none⟩ ∧
    search_properties [⟨some "Baner", some "1BHK", some 100, none⟩]
      (⟨none, none, none, none⟩ : QueryFilter) 1 =
      [⟨some "Baner", some "1BHK", some 100, none⟩].take 1 := by
  have h := parse_unrecognized_and_search_noop "hello world" (by decide) (by decide)
    (by decide) (by decide) (by decide) (by decide) (by decide) (by decide)
    (by decide) (by decide)
  exact ⟨h.1, h.2 _ 1⟩

/-- C9: `search_properties` is idempotent — run on its own output with the
same filter and limit it returns that output unchanged, since every surviving
row already passes every truthy predicate and the output length is already
within the limit. -/
theorem search_idempotent (df : List Listing) (fl : QueryFilter) (limit : ℕ) :
    search_properties (search_properties df fl limit) fl limit
      = search_properties df fl limit := by
  simp only [search_eq]
  have hall : ∀ a ∈ (List.filter (rowPass fl) df).take limit, rowPass fl a = true :=
    fun a ha => (List.mem_filter.mp (List.mem_of_mem_take ha)).2
  rw [List.filter_eq_self.mpr hall]
  exact List.take_of_length_le (List.length_take_le limit _)

/-- C7, counterexample: on results priced 9,000,000 and 11,000,000 the
average sentence is rendered with the source's literal mojibake currency
prefix, so the claimed rendering with the real rupee sign does not occur in
the summary. -/
theorem summary_rupee_glyph_false :
    generate_summary
        [⟨none, none, some 9000000, none⟩, ⟨none, none, some 11000000, none⟩]
        ⟨none, none, none, none⟩ =
      "Found 2 properties. Average price is around " ++ rupee ++ "1.00 Cr." ∧
    hasSub ("Found 2 properties. Average price is around " ++ rupee ++ "1.00 Cr.").data
      ("₹1.00 Cr".data) = false := by
  constructor
  · have hm : priceMean
        [(⟨none, none, some 9000000, none⟩ : Listing), ⟨none, none, some 11000000, none⟩]
        = 10000000 := by
      unfold priceMean droppedPrices
      simp only [List.filterMap_cons, List.filterMap_nil]
      norm_num
    simp only [generate_summary]
    rw [hm]
    unfold avg_str
    rw [if_pos (by norm_num : (10000000 : ℚ) ≤ 10000000)]
    unfold fmtFixed
    have h2 : ((10000000 : ℚ) / 10000000) * (10 : ℚ) ^ 2 = 100 := by norm_num
    rw [h2]
    decide
  · decide

/-- C7 (amended): for non-empty results, if some result has a non-missing
price the summary is the first sentence followed by the average sentence,
where the average is the arithmetic mean of the non-missing prices of the
already-limited results and, at or above ten million, is formatted in crores
with two decimals behind the source's literal currency prefix (the mojibake
of the rupee sign, not the rupee sign itself); with no price present the
sentence is omitted entirely. -/
theorem summary_average_spec (results : List Listing) (fl : QueryFilter)
    (h0 : results.length ≠ 0) :
    ((droppedPrices results).length ≠ 0 →
      generate_summary results fl =
        summary_first results fl ++ " Average price is around "
          ++ avg_str (priceMean results) ++ "." ∧
      (10000000 ≤ priceMean results →
        avg_str (priceMean results) =
          rupee ++ fmtFixed 2 (priceMean results / 10000000) ++ " Cr")) ∧
    ((droppedPrices results).length = 0 →
      generate_summary results fl = summary_first results fl) ∧
    priceMean results =
      (droppedPrices results).sum / ((droppedPrices results).length : ℚ) := by
  refine ⟨?_, ?_, rfl⟩
  · intro hp
    constructor
    · simp only [generate_summary]
      rw [if_neg (fun hc => h0 (by simpa using hc)), if_pos (Nat.pos_of_ne_zero hp)]
    · intro havg
      unfold avg_str
      rw [if_pos havg]
  · intro hz
    simp only [generate_summary]
    rw [if_neg (fun hc => h0 (by simpa using hc)), if_neg (by omega)]

/-- C7, witness: the amended theorem at the two listings of the claim's
example. -/
theorem summary_average_spec_w :
    generate_summary
        [⟨none, none, some 9000000, none⟩, ⟨none, none, some 11000000, none⟩]
        ⟨none, none, none, none⟩ =
      summary_first
          [⟨none, none, some 9000000, none⟩, ⟨none, none, some 11000000, none⟩]
          ⟨none, none, none, none⟩ ++ " Average price is around "
        ++ avg_str (priceMean
            [⟨none, none, some 9000000, none⟩, ⟨none, none, some 11000000, none⟩])
        ++ "." :=
  ((summary_average_spec _ _ (by decide)).1 (by decide)).1

/-- C8: the card's price display buckets correctly — at or above ten million
the price is formatted in crores with two decimals, strictly between zero and
ten million in lakhs with two decimals, and a missing or non-positive price
renders as the fixed placeholder. -/
theorem card_price_buckets (p : ℚ) :
    (10000000 ≤ p → card_price_str (some p) = rupee ++ fmtFixed 2 (p / 10000000) ++ " Cr") ∧
    (0 < p → p < 10000000 → card_price_str (some p) = rupee ++ fmtFixed 2 (p / 100000) ++ " L") ∧
    (p ≤ 0 → card_price_str (some p) = "Price on request") ∧
    card_price_str none = "Price on request" := by
  refine ⟨?_, ?_, ?_, rfl⟩
  · intro h
    have h0 : (0 : ℚ) < p := lt_of_lt_of_le (by norm_num) h
    simp only [card_price_str]
    rw [if_pos h0, if_pos h]
  · intro h1 h2
    simp only [card_price_str]
    rw [if_pos h1, if_neg (not_le.mpr h2)]
  · intro h
    simp only [card_price_str]
    rw [if_neg (not_lt.mpr h)]

/-- C8, witness: the three bucket clauses at 12,000,000, at 500,000, at 0,
and the missing-price clause. -/
theorem card_price_buckets_w :
    card_price_str (some 12000000) = rupee ++ fmtFixed 2 ((12000000 : ℚ) / 10000000) ++ " Cr" ∧
    card_price_str (some 500000) = rupee ++ fmtFixed 2 ((500000 : ℚ) / 100000) ++ " L" ∧
    card_price_str (some 0) = "Price on request" ∧
    card_price_str none = "Price on request" :=
  ⟨(card_price_buckets 12000000).1 (by norm_num),
   (card_price_buckets 500000).2.1 (by norm_num) (by norm_num),
   (card_price_buckets 0).2.2.1 (by norm_num),
   (card_price_buckets 0).2.2.2⟩

/-- C10, counterexample: the query "under 0 cr" does not parse to a zero
budget — the budget regex never matches (its mandatory mojibake literal
cannot occur in a lowered query), so the parsed budget is null, not 0.0. -/
theorem parse_under0_no_budget :
    parse_query "under 0 cr" = some ⟨none, none, none, none⟩ ∧
    (⟨none, none, none, none⟩ : QueryFilter).budget_max ≠ some 0 := by
  refine ⟨by decide, by decide⟩

/-- C10 (amended): for a filter whose max budget is 0 — a value `parse_query`
cannot actually produce, since the corrupted budget regexes never match —
the truthiness guards make `search_properties` behave exactly as if the
budget were null (the predicate is skipped, so listings of every price
survive), and `generate_summary` likewise omits the budget clause. -/
theorem budget_zero_truthiness_skip (fl : QueryFilter) (h : fl.budget_max = some 0) :
    (∀ df limit, search_properties df fl limit =
      search_properties df ⟨fl.city, fl.bhk, none, fl.possession⟩ limit) ∧
    (∀ res, generate_summary res fl =
      generate_summary res ⟨fl.city, fl.bhk, none, fl.possession⟩) := by
  have ht : truthyQ fl.budget_max = false := by rw [h]; decide
  constructor
  · intro df limit
    rw [search_eq, search_eq]
    have hrp : rowPass fl = rowPass ⟨fl.city, fl.bhk, none, fl.possession⟩ := by
      funext row
      simp only [rowPass, ht]
      rfl
    rw [hrp]
  · intro res
    simp only [generate_summary, summary_first, ht]
    rfl

/-- C10, witness: with a zero-budget filter a listing priced 5,000,000 is
returned (the budget stage is skipped), and the no-results summary for that
filter matches the null-budget one. -/
theorem budget_zero_truthiness_skip_w :
    search_properties [⟨some "Kharadi, Pune", some "2BHK", some 5000000, none⟩]
        ⟨none, none, some 0, none⟩ 10 =
      [⟨some "Kharadi, Pune", some "2BHK", some 5000000, none⟩] ∧
    generate_summary [⟨none, none, some 7000000, none⟩] ⟨none, none, some 0, none⟩ =
      generate_summary [⟨none, none, some 7000000, none⟩] ⟨none, none, none, none⟩ := by
  have h := budget_zero_truthiness_skip ⟨none, none, some 0, none⟩ rfl
  exact ⟨(h.1 [⟨some "Kharadi, Pune", some "2BHK", some 5000000, none⟩] 10).trans (by decide),
    h.2 [⟨none, none, some 7000000, none⟩]⟩
